import Mathlib

/-!
Verification of the tap-pushbullet extraction core.

This file gives a shallow embedding of the algorithmic core of the
tap-pushbullet repository (a Singer tap for the Pushbullet REST API) and
proves properties of it:

* `_get_wait_time_from_response` (client.py): the rate-limit-aware backoff
  wait-time policy;
* `PushbulletPaginator.has_more` (client.py): the page-continuation detector
  built on a JSONPath lookup of the record array;
* the paginator advance step with its cursor loop guard (the advance step
  itself lives in the external singer_sdk base class; it is modelled from
  the spec where noted);
* `get_url_params` of the base stream class and of the `Pushes` override
  (client.py / streams.py);
* the stream definitions (streams.py) and the tap registry (tap.py).

Numbers are modelled with `ℚ` (Python floats carry real-number values here;
no rounding behaviour of the original matters to any property proved).
Fallible code (Python exceptions) is modelled with `Option`.
-/

namespace TapPushbullet

/-- JSON values, as decoded from a response body or held in the tap
configuration. Objects are ordered association lists, mirroring Python
dicts with unique keys. -/
inductive Json : Type where
  | null : Json
  | bool : Bool → Json
  | num : ℚ → Json
  | str : String → Json
  | arr : List Json → Json
  | obj : List (String × Json) → Json

/-- Association-list lookup, mirroring Python `dict.get`: the value bound to
the first occurrence of the key, or `none`. -/
def alookup {α : Type} (k : String) : List (String × α) → Option α
  | [] => Option.none
  | (k', v) :: rest => if k' = k then some v else alookup k rest

/-! ## Wait-time policy (`client.py:_get_wait_time_from_response`) -/

/-- An HTTP response as seen by the wait-time policy: only its headers
matter. Mirrors the `requests.Response` attributes read by the code. -/
structure PyResponse : Type where
  headers : List (String × String)

/-- The failure signal: a `RetriableAPIError` carrying an optional response
(`None` for a network-level failure with no response at all). -/
structure RetriableAPIError : Type where
  response : Option PyResponse

/-- Digit accumulator for `pyFloat`: folds a digit list into a natural
number, `none` on any non-digit character. -/
def parseDigitsAux : List Char → Nat → Option Nat
  | [], acc => some acc
  | c :: cs, acc =>
    if c.isDigit then parseDigitsAux cs (acc * 10 + (c.toNat - 48))
    else Option.none

/-- Parse a non-empty run of decimal digits; `none` if empty or non-digit. -/
def parseDigits (cs : List Char) : Option Nat :=
  match cs with
  | [] => Option.none
  | _ :: _ => parseDigitsAux cs 0

/-- Split a character list at the first dot, returning the part before it
and, when a dot is present, the part after it. -/
def splitDot : List Char → List Char × Option (List Char)
  | [] => ([], Option.none)
  | c :: rest =>
    if c = '.' then ([], some rest)
    else
      let (a, b) := splitDot rest
      (c :: a, b)

/-- Magnitude part of `pyFloat`: parse `digits [. digits]` (at least one
digit somewhere) into a non-negative rational. -/
def pyFloatMag (cs : List Char) : Option ℚ :=
  let (ip, fpOpt) := splitDot cs
  match fpOpt with
  | Option.none => (parseDigits ip).map (fun n => mkRat (Int.ofNat n) 1)
  | some fp =>
    if fp.contains '.' then Option.none
    else if ip.isEmpty && fp.isEmpty then Option.none
    else
      match (if ip.isEmpty then some 0 else parseDigits ip),
            (if fp.isEmpty then some 0 else parseDigits fp) with
      | some i, some f =>
        some (mkRat (Int.ofNat (i * 10 ^ fp.length + f)) (10 ^ fp.length))
      | _, _ => Option.none

/-- Embedding of Python `float(s)` on the decimal-literal grammar
`[-] digits [. digits]` (the forms that reach this code: epoch-second header
values such as `"1441054560.741007"`). Returns `none` where Python `float`
raises `ValueError`. -/
def pyFloat (s : String) : Option ℚ :=
  match s.toList with
  | [] => Option.none
  | c :: rest =>
    if c = '-' then (pyFloatMag rest).map (fun q => -q)
    else pyFloatMag (c :: rest)

/-- Embedding of `client.py:_get_wait_time_from_response`. `now` is the
value of `datetime.now(tz=timezone.utc).timestamp()` at the moment of the
call, made an explicit argument. Returns `none` exactly where the original
raises (an unparseable non-empty `X-Ratelimit-Reset` header). Python
truthiness of `if reset:` is: the header is present and non-empty. -/
def _get_wait_time_from_response (now : ℚ) (e : RetriableAPIError) :
    Option ℚ :=
  match e.response with
  | Option.none => some 60
  | some r =>
    match alookup "X-Ratelimit-Reset" r.headers with
    | some reset =>
      if reset = "" then some 0
      else (pyFloat reset).map (fun t => max (t - now) 0)
    | Option.none => some 0

/-- The reset header carried by a failure signal, if any: `none` when there
is no response or the response has no `X-Ratelimit-Reset` header. -/
def reset_header (e : RetriableAPIError) : Option String :=
  match e.response with
  | Option.none => Option.none
  | some r => alookup "X-Ratelimit-Reset" r.headers

/-! ## Page-continuation detector and paginator (`client.py`) -/

/-- Strip a trailing `[*]` from a character list. -/
def dropStarBrackets (cs : List Char) : Option (List Char) :=
  match cs.reverse with
  | ']' :: '*' :: '[' :: mid => some mid.reverse
  | _ => Option.none

/-- Parse a records JSONPath of the shape `$.field[*]` into its field name.
This is the only shape the streams use: every stream sets
`records_jsonpath = "$." ++ name ++ "[*]"`. -/
def pathField (p : String) : Option String :=
  match p.toList with
  | '$' :: '.' :: rest => (dropStarBrackets rest).map (fun cs => String.mk cs)
  | _ => Option.none

/-- Embedding of `extract_jsonpath(records_jsonpath, body)` for the
`$.field[*]` shape: the elements of the array found at `field` of the
top-level object, and no matches at all when the body is not an object,
lacks the field, or the field value is not an array. -/
def extract_jsonpath (p : String) (j : Json) : List Json :=
  match pathField p with
  | Option.none => []
  | some f =>
    match j with
    | Json.obj fields =>
      match alookup f fields with
      | some (Json.arr xs) => xs
      | _ => []
    | _ => []

/-- Embedding of `PushbulletPaginator.has_more`: `first(...)` raises
`StopIteration` exactly when the JSONPath extraction yields no element, in
which case the method returns `False`; otherwise it returns `True`. The
embedding is total: malformed bodies give `False`, never an error. -/
def has_more (records_jsonpath : String) (body : Json) : Bool :=
  !(extract_jsonpath records_jsonpath body).isEmpty

/-- Modelled from the spec: the next-page token, an opaque string extracted
at the tap's `next_page_token_jsonpath = "$.cursor"` by the framework's
`JSONPathPaginator.get_next` (singer_sdk, not under src/). -/
def get_next (body : Json) : Option String :=
  match body with
  | Json.obj fields =>
    match alookup "cursor" fields with
    | some (Json.str s) => some s
    | _ => Option.none
  | _ => Option.none

/-- Pagination state: the token used for the request just completed, the
finished flag, and the number of pages processed. Created fresh per stream
sync by `PushbulletStream.get_new_paginator`. -/
structure PaginatorState : Type where
  value : Option String
  finished : Bool
  count : Nat

/-- Modelled from the spec: the framework's paginator advance step
(singer_sdk `BaseAPIPaginator.advance`, not under src/), specialized with
the continuation detector `has_more` and the token extraction `get_next` of
this tap. If the continuation detector denies more pages, stop; otherwise
derive the next token; stop when there is none; and — the cursor loop
guard — stop when it equals, by value, the token of the request just
completed, even though the continuation detector said otherwise. -/
def advance (records_jsonpath : String) (st : PaginatorState) (body : Json) :
    PaginatorState :=
  if has_more records_jsonpath body then
    match get_next body with
    | Option.none => { st with finished := true, count := st.count + 1 }
    | some tok =>
      if st.value = some tok then
        { st with finished := true, count := st.count + 1 }
      else
        { value := some tok, finished := false, count := st.count + 1 }
  else { st with finished := true, count := st.count + 1 }

/-! ## Stream definitions (`streams.py`) -/

/-- The four stream classes registered with the tap. -/
inductive StreamId : Type where
  | chats : StreamId
  | devices : StreamId
  | pushes : StreamId
  | subscriptions : StreamId
deriving DecidableEq

/-- The `name` attribute of each stream class. -/
def StreamId.name : StreamId → String
  | StreamId.chats => "chats"
  | StreamId.devices => "devices"
  | StreamId.pushes => "pushes"
  | StreamId.subscriptions => "subscriptions"

/-- The `path` attribute of each stream class, a literal in the source. -/
def StreamId.path : StreamId → String
  | StreamId.chats => "/v2/chats"
  | StreamId.devices => "/v2/devices"
  | StreamId.pushes => "/v2/pushes"
  | StreamId.subscriptions => "/v2/subscriptions"

/-- The `records_jsonpath` attribute: the f-string `$.{name}[*]`. -/
def StreamId.records_jsonpath (s : StreamId) : String :=
  "$." ++ s.name ++ "[*]"

/-- The `replication_key` attribute, `"modified"` on every stream class. -/
def StreamId.replication_key (_ : StreamId) : String := "modified"

/-- The top-level property names of each stream's declared JSON schema, in
source order. -/
def StreamId.schemaFields : StreamId → List String
  | StreamId.chats =>
    ["iden", "active", "created", "modified", "muted", "with"]
  | StreamId.devices =>
    ["iden", "active", "created", "modified", "icon", "nickname",
     "generated_nickname", "manufacturer", "model", "app_version",
     "fingerprint", "key_fingerprint", "push_token", "has_sms"]
  | StreamId.pushes =>
    ["iden", "active", "created", "modified", "type", "dismissed", "guid",
     "direction", "sender_iden", "sender_email", "sender_email_normalized",
     "sender_name", "receiver_iden", "receiver_email",
     "receiver_email_normalized", "target_device_iden",
     "source_device_iden", "client_iden", "channel_iden",
     "awake_app_guids", "title", "body", "url", "file_name", "file_type",
     "file_url", "image_url", "image_width", "image_height"]
  | StreamId.subscriptions =>
    ["iden", "active", "created", "modified", "muted", "channel"]

/-- `PushbulletStream.PAGE_SIZE`. -/
def PAGE_SIZE : Nat := 100

/-- A query-parameter value as placed in the params dict: Python `None`, a
string, an int, or a float. -/
inductive ParamVal : Type where
  | pynone : ParamVal
  | str : String → ParamVal
  | int : Nat → ParamVal
  | num : ℚ → ParamVal
deriving DecidableEq

/-- The `cursor` parameter value: the next-page token or `None`. -/
def ParamVal.ofToken : Option String → ParamVal
  | Option.none => ParamVal.pynone
  | some s => ParamVal.str s

/-- The `modified_after` parameter value: the starting replication-key
value or `None`. -/
def ParamVal.ofNum : Option ℚ → ParamVal
  | Option.none => ParamVal.pynone
  | some q => ParamVal.num q

/-- Embedding of `PushbulletStream.get_url_params` together with the
`Pushes` override: the base method builds `{cursor, limit, modified_after}`
and the `Pushes` subclass calls it, then sets `active` to `"true"`.
`start_value` stands for `get_starting_replication_key_value(context)`
(framework-supplied: the per-stream replication high-water mark or the
configured start date). -/
def get_url_params (s : StreamId) (start_value : Option ℚ)
    (next_page_token : Option String) : List (String × ParamVal) :=
  let params : List (String × ParamVal) :=
    [("cursor", ParamVal.ofToken next_page_token),
     ("limit", ParamVal.int PAGE_SIZE),
     ("modified_after", ParamVal.ofNum start_value)]
  match s with
  | StreamId.pushes => params ++ [("active", ParamVal.str "true")]
  | _ => params

/-- The authenticator object built by the `authenticator` property:
`APIKeyAuthenticator.create_for_stream(key, value, location)`. -/
structure APIKeyAuthenticator : Type where
  key : String
  value : String
  location : String

/-- Embedding of the `authenticator` property of `PushbulletStream`: the
configured `api_key` placed in the `Access-Token` header. -/
def authenticator (api_key : String) : APIKeyAuthenticator :=
  { key := "Access-Token", value := api_key, location := "header" }

/-! ## Tap registry (`tap.py`) -/

/-- Embedding of the validation predicate induced by
`TapPushbullet.config_jsonschema`: an object with required property
`api_key` of JSON type string and optional property `start_date` of JSON
type number. (JSON Schema `string` imposes no minimum length.) -/
def config_jsonschema_valid (config : List (String × Json)) : Bool :=
  (match alookup "api_key" config with
   | some (Json.str _) => true
   | _ => false) &&
  (match alookup "start_date" config with
   | Option.none => true
   | some (Json.num _) => true
   | _ => false)

/-- The configured credential, as read by the `authenticator` property
(`self.config["api_key"]`). -/
def api_key_of (config : List (String × Json)) : Option String :=
  match alookup "api_key" config with
  | some (Json.str s) => some s
  | _ => Option.none

/-- Embedding of `tap.py:STREAM_TYPES`, in source order. -/
def STREAM_TYPES : List StreamId :=
  [StreamId.chats, StreamId.devices, StreamId.pushes,
   StreamId.subscriptions]

/-- Embedding of `TapPushbullet.discover_streams`: one instance per stream
class, each holding the tap's shared configuration. -/
def discover_streams (config : List (String × Json)) :
    List (StreamId × List (String × Json)) :=
  STREAM_TYPES.map (fun s => (s, config))

/-! ## Claims -/

/-- C1: the wait-time policy returns exactly 60 when no response was
obtained; when a response carries a (non-empty, parseable) rate-limit reset
timestamp `t` it returns `max (t - now) 0`, which is never negative; and
when a response carries no reset header it returns 0. -/
theorem c1_wait_time_policy (now : ℚ) (e : RetriableAPIError) :
    (e.response = Option.none → _get_wait_time_from_response now e = some 60) ∧
    (∀ r s t, e.response = some r →
      alookup "X-Ratelimit-Reset" r.headers = some s → s ≠ "" →
      pyFloat s = some t →
      _get_wait_time_from_response now e = some (max (t - now) 0) ∧
        (0 : ℚ) ≤ max (t - now) 0) ∧
    (∀ r, e.response = some r →
      alookup "X-Ratelimit-Reset" r.headers = Option.none →
      _get_wait_time_from_response now e = some 0) := by
  refine ⟨?_, ?_, ?_⟩
  · intro h
    simp [_get_wait_time_from_response, h]
  · intro r s t h1 h2 h3 h4
    refine ⟨?_, le_max_right _ _⟩
    simp [_get_wait_time_from_response, h1, h2, h3, h4]
  · intro r h1 h2
    simp [_get_wait_time_from_response, h1, h2]

/-- Witness for C1: each of the three branches at a concrete input. -/
theorem c1_wait_time_policy_witness :
    (_get_wait_time_from_response 0 ⟨Option.none⟩ = some 60) ∧
    (_get_wait_time_from_response 70 ⟨some ⟨[("X-Ratelimit-Reset", "100")]⟩⟩ =
      some (max ((100 : ℚ) - 70) 0)) ∧
    (_get_wait_time_from_response 0 ⟨some ⟨[("Content-Type", "json")]⟩⟩ =
      some 0) :=
  ⟨(c1_wait_time_policy 0 ⟨Option.none⟩).1 rfl,
   ((c1_wait_time_policy 70 ⟨some ⟨[("X-Ratelimit-Reset", "100")]⟩⟩).2.1
      ⟨[("X-Ratelimit-Reset", "100")]⟩ "100" 100 rfl (by decide) (by decide)
      (by decide)).1,
   (c1_wait_time_policy 0 ⟨some ⟨[("Content-Type", "json")]⟩⟩).2.2
      ⟨[("Content-Type", "json")]⟩ rfl (by decide)⟩

/-- C10: a present but empty `X-Ratelimit-Reset` header is treated like an
absent one (Python truthiness of `if reset:`): the policy returns 0 without
attempting to parse the empty string. -/
theorem c10_empty_reset_header (now : ℚ) (e : RetriableAPIError)
    (r : PyResponse) (h1 : e.response = some r)
    (h2 : alookup "X-Ratelimit-Reset" r.headers = some "") :
    _get_wait_time_from_response now e = some 0 := by
  simp [_get_wait_time_from_response, h1, h2]

/-- Witness for C10 at a concrete response whose reset header is `""`. -/
theorem c10_empty_reset_header_witness :
    _get_wait_time_from_response 3 ⟨some ⟨[("X-Ratelimit-Reset", "")]⟩⟩ =
      some 0 :=
  c10_empty_reset_header 3 ⟨some ⟨[("X-Ratelimit-Reset", "")]⟩⟩
    ⟨[("X-Ratelimit-Reset", "")]⟩ rfl (by decide)

/-- Counterexample to C8 as stated: the wait time is not a function of the
failure signal alone. On the same signal (a response with reset timestamp
100) two invocations at different clock times (the embedded `now` argument,
`datetime.now()` in the source) give different waits. -/
theorem c8_counterexample :
    _get_wait_time_from_response 0 ⟨some ⟨[("X-Ratelimit-Reset", "100")]⟩⟩ ≠
      _get_wait_time_from_response 50
        ⟨some ⟨[("X-Ratelimit-Reset", "100")]⟩⟩ := by
  have h : pyFloat "100" = some 100 := by decide
  have h2 : alookup "X-Ratelimit-Reset" [("X-Ratelimit-Reset", "100")] =
      some "100" := by decide
  simp only [_get_wait_time_from_response, h, h2]
  rw [if_neg (by decide : ¬ ("100" = ""))]
  simp only [Option.map_some', ne_eq, Option.some.injEq]
  rw [sub_zero, max_eq_left (by norm_num : (0 : ℚ) ≤ 100),
    max_eq_left (by norm_num : (0 : ℚ) ≤ 100 - 50)]
  rw [if_neg (by decide : ¬ ("100" = ""))]
  intro hc
  exact absurd (Option.some.inj hc) (by norm_num)

/-- C8 as amended: the wait-time policy is a deterministic function of the
failure signal together with the current clock reading, and whenever no
response was obtained, or the response carries no non-empty reset header,
the result does not depend on the clock at all. (Determinism in the pair is
definitional: the embedding is a pure function of `(now, e)`.) -/
theorem c8_clock_independent_cases (e : RetriableAPIError) (now₁ now₂ : ℚ)
    (h : reset_header e = Option.none ∨ reset_header e = some "") :
    _get_wait_time_from_response now₁ e =
      _get_wait_time_from_response now₂ e := by
  cases he : e.response with
  | none => simp [_get_wait_time_from_response, he]
  | some r =>
    rcases h with h | h <;> simp only [reset_header, he] at h <;>
      simp [_get_wait_time_from_response, he, h]

/-- Witness for the amended C8: no-response signal, two clock readings. -/
theorem c8_clock_independent_cases_witness :
    _get_wait_time_from_response 0 ⟨Option.none⟩ =
      _get_wait_time_from_response 5 ⟨Option.none⟩ :=
  c8_clock_independent_cases ⟨Option.none⟩ 0 5 (Or.inl rfl)

/-- C2: the continuation detector returns true exactly when the records
JSONPath yields at least one element; with zero elements it is false for
every body, in particular regardless of any `cursor` field the body may
carry. -/
theorem c2_has_more_iff_records (p : String) (body : Json) :
    has_more p body = true ↔ extract_jsonpath p body ≠ [] := by
  unfold has_more
  cases extract_jsonpath p body <;> simp

/-- C6: on any body where the records JSONPath yields no match (malformed
or unexpected envelopes included), the continuation check returns false,
exactly as for a well-formed final page; the embedding is a total function,
so no error is possible. -/
theorem c6_no_match_means_false (p : String) (body : Json)
    (h : extract_jsonpath p body = []) :
    has_more p body = false := by
  unfold has_more
  rw [h]
  rfl

/-- Witness for C6: an unexpected envelope (no record array, only an error
marker and a cursor) yields no match and a false continuation. -/
theorem c6_no_match_means_false_witness :
    extract_jsonpath "$.chats[*]"
        (Json.obj [("error", Json.str "x"), ("cursor", Json.str "Y")]) = [] ∧
      has_more "$.chats[*]"
        (Json.obj [("error", Json.str "x"), ("cursor", Json.str "Y")]) =
        false :=
  ⟨rfl,
   c6_no_match_means_false "$.chats[*]"
     (Json.obj [("error", Json.str "x"), ("cursor", Json.str "Y")]) rfl⟩

/-- C3: whenever the token derived from the response equals, by value, the
token used for the request just completed, the advance step marks
pagination finished — even when the continuation detector answered true —
so no further request (a third use of the same cursor) can be issued. -/
theorem c3_cursor_loop_guard (p : String) (st : PaginatorState)
    (body : Json) (t : String) (h1 : st.value = some t)
    (h2 : get_next body = some t) :
    (advance p st body).finished = true := by
  unfold advance
  by_cases hm : has_more p body = true
  · simp [hm, h2, h1]
  · simp [Bool.of_not_eq_true hm]

/-- Witness for C3: a page whose record array is non-empty (continuation
true) but whose cursor repeats the one just used; the advance step
finishes. -/
theorem c3_cursor_loop_guard_witness :
    has_more "$.chats[*]"
        (Json.obj [("chats", Json.arr [Json.obj []]),
          ("cursor", Json.str "X")]) = true ∧
      (advance "$.chats[*]" ⟨some "X", false, 1⟩
        (Json.obj [("chats", Json.arr [Json.obj []]),
          ("cursor", Json.str "X")])).finished = true :=
  ⟨rfl,
   c3_cursor_loop_guard "$.chats[*]" ⟨some "X", false, 1⟩
     (Json.obj [("chats", Json.arr [Json.obj []]), ("cursor", Json.str "X")])
     "X" rfl rfl⟩

/-- C4: for every starting replication value (context) and every next-page
token (including none), the `pushes` stream's query parameters carry
`active = "true"`, in addition to the base parameters `cursor`, `limit`
and `modified_after`. -/
theorem c4_pushes_always_active (start_value : Option ℚ)
    (tok : Option String) :
    alookup "active" (get_url_params StreamId.pushes start_value tok) =
      some (ParamVal.str "true") ∧
    alookup "cursor" (get_url_params StreamId.pushes start_value tok) =
      some (ParamVal.ofToken tok) ∧
    alookup "limit" (get_url_params StreamId.pushes start_value tok) =
      some (ParamVal.int 100) ∧
    alookup "modified_after" (get_url_params StreamId.pushes start_value tok) =
      some (ParamVal.ofNum start_value) := by
  refine ⟨?_, ?_, ?_, ?_⟩ <;> simp [get_url_params, alookup, PAGE_SIZE]

/-- Counterexample to C5 as stated: the `pushes` stream's query parameters
are not exactly `cursor`, `limit`, `modified_after` — the override adds a
fourth key, `active`. -/
theorem c5_counterexample :
    (get_url_params StreamId.pushes Option.none Option.none).map Prod.fst ≠
      ["cursor", "limit", "modified_after"] := by
  decide

/-- C5 as amended: every stream requests its fixed path `/v2/<name>` (one
of the four known paths) with query parameters `cursor` (the next-page
token), `limit = 100` and `modified_after` (the starting replication-key
value) — plus `active = "true"` for the `pushes` stream — and an
authenticator that sets the `Access-Token` header to the configured
`api_key`. -/
theorem c5_request_parameterization (s : StreamId) (start_value : Option ℚ)
    (tok : Option String) (api_key : String) :
    s.path = "/v2/" ++ s.name ∧
    s.path ∈ ["/v2/chats", "/v2/devices", "/v2/pushes",
      "/v2/subscriptions"] ∧
    get_url_params s start_value tok =
      [("cursor", ParamVal.ofToken tok), ("limit", ParamVal.int 100),
        ("modified_after", ParamVal.ofNum start_value)] ++
        (if s = StreamId.pushes then [("active", ParamVal.str "true")]
          else []) ∧
    (authenticator api_key).key = "Access-Token" ∧
    (authenticator api_key).value = api_key ∧
    (authenticator api_key).location = "header" := by
  refine ⟨?_, ?_, ?_, rfl, rfl, rfl⟩ <;>
    cases s <;>
    simp [StreamId.path, StreamId.name, get_url_params, PAGE_SIZE]

/-- C9: the four registered streams have pairwise distinct names, and each
stream's replication key `modified` names a field of its declared schema. -/
theorem c9_stream_invariants :
    (STREAM_TYPES.map StreamId.name).Nodup ∧
    ∀ s : StreamId, s.replication_key ∈ s.schemaFields := by
  refine ⟨by decide, ?_⟩
  intro s
  cases s <;> decide

/-- Counterexample to C7 as stated: the configuration schema does not
require `api_key` to be non-empty — a configuration whose `api_key` is the
empty string satisfies it (JSON Schema `string` with no minimum length). -/
theorem c7_counterexample :
    config_jsonschema_valid [("api_key", Json.str "")] = true ∧
      api_key_of [("api_key", Json.str "")] = some "" := by
  exact ⟨rfl, rfl⟩

/-- C7 as amended: the configuration schema requires `api_key` as a string
(presence required; emptiness is not ruled out) and admits `start_date` as
an optional number; for every configuration satisfying the schema the
registry produces exactly one initialized stream instance per stream
definition, in registry order, all sharing that same configuration (hence
the same credential). -/
theorem c7_registry (config : List (String × Json))
    (h : config_jsonschema_valid config = true) :
    (∃ s, api_key_of config = some s) ∧
    (discover_streams config).map Prod.fst = STREAM_TYPES ∧
    ∀ p ∈ discover_streams config, p.2 = config := by
  refine ⟨?_, rfl, ?_⟩
  · unfold config_jsonschema_valid at h
    unfold api_key_of
    cases hk : alookup "api_key" config with
    | none => rw [hk] at h; exact absurd h (by simp)
    | some v =>
      cases v with
      | str s => exact ⟨s, rfl⟩
      | null => rw [hk] at h; exact absurd h (by simp)
      | bool b => rw [hk] at h; exact absurd h (by simp)
      | num q => rw [hk] at h; exact absurd h (by simp)
      | arr xs => rw [hk] at h; exact absurd h (by simp)
      | obj fields => rw [hk] at h; exact absurd h (by simp)
  · intro p hp
    simp only [discover_streams, List.mem_map] at hp
    obtain ⟨s, _, rfl⟩ := hp
    rfl

/-- Witness for the amended C7 at a concrete valid configuration. -/
theorem c7_registry_witness :
    config_jsonschema_valid [("api_key", Json.str "k")] = true ∧
      ((∃ s, api_key_of [("api_key", Json.str "k")] = some s) ∧
        (discover_streams [("api_key", Json.str "k")]).map Prod.fst =
          STREAM_TYPES ∧
        ∀ p ∈ discover_streams [("api_key", Json.str "k")],
          p.2 = [("api_key", Json.str "k")]) :=
  ⟨rfl, c7_registry [("api_key", Json.str "k")] rfl⟩

end TapPushbullet
